import Mathlib

/-!
Verification of the ServiceNow MCP adapter (`servicenow.py`) against its
natural-language specification.

The source file is a thin async HTTP adapter.  We shallowly embed it:

* JSON values become the inductive `JVal`; Python dicts are association
  lists (parsed JSON never carries duplicate keys, and `dict.get` /
  membership are modelled by first-match lookup).
* The single remote HTTP exchange performed by the helper
  `_make_servicenow_request` is modelled by an oracle argument of type
  `HttpOutcome` describing what the network produced: an HTTP response
  (status, raw body text, and its JSON parse when the body is valid JSON),
  an `httpx.RequestError`, or any other exception raised during the call.
* Raised `ValueError`s are modelled by `Except String` (the payload is the
  exception's message, which is all the callers ever observe).  Exceptions
  of other types, which the tool functions do *not* catch, are modelled by
  `Except PyExc`: a tool returning `.error e` means the Python function
  lets exception `e` escape to its caller instead of returning a string.
* Every tool also returns the list of requests it handed to the transport
  helper (endpoint, payload, method), in order, so that claims about which
  network calls are issued can be stated.
-/

/-- A JSON value, as produced by `response.json()` / built for payloads.
Numbers are integers: every number the source ever places in a payload is a
Python `int`, and no claim involves floats. -/
inductive JVal where
  | str (s : String)
  | num (n : Int)
  | bool (b : Bool)
  | null
  | obj (fields : List (String × JVal))
  | arr (items : List JVal)

/-- Python exceptions that the tool functions do not catch (their
`except ValueError` clauses miss these), so they escape to the caller.
The interpreter-supplied message text is not observable anywhere in the
source, so it is not modelled. -/
inductive PyExc where
  | attributeError
  | typeError
  | keyError
deriving DecidableEq, Repr

/-- First-match lookup in a dict, i.e. `d[k]` / the hit case of `d.get(k)`. -/
def dget (d : List (String × JVal)) (k : String) : Option JVal :=
  (d.find? (fun p => p.1 == k)).map (fun p => p.2)

/-- Python `d.get(k, default)` on a value statically known to be a dict. -/
def pyGetD (d : List (String × JVal)) (k : String) (default : JVal) : JVal :=
  (dget d k).getD default

/-- Python `v.get(k, default)` on an arbitrary value: `AttributeError`
unless `v` is a dict. -/
def pyGet (v : JVal) (k : String) (default : JVal) : Except PyExc JVal :=
  match v with
  | .obj f => .ok (pyGetD f k default)
  | _ => .error .attributeError

/-- Python `v.get(k)` (default `None`) on an arbitrary value. -/
def pyGet1 (v : JVal) (k : String) : Except PyExc JVal :=
  pyGet v k .null

/-- Python truthiness of a JSON value. -/
def pyFalsy : JVal → Bool
  | .str s => s == ""
  | .num n => n == 0
  | .bool b => !b
  | .null => true
  | .obj f => f.isEmpty
  | .arr l => l.isEmpty

def pyTruthy (v : JVal) : Bool := !(pyFalsy v)

/-- Python truthiness of an `Optional[str]` argument (`None` and `""` are
falsy). -/
def pyFalsyOptStr : Option String → Bool
  | none => true
  | some s => s == ""

/-- Python `a or b` for an `Optional[str]` and a `str`. -/
def pyOrStr (a : Option String) (b : String) : String :=
  match a with
  | some s => if s == "" then b else s
  | none => b

mutual

/-- Python `repr` of a JSON value (what `str` does to values nested inside
containers).  Quote-escaping inside `repr` of strings is not modelled: no
claim stringifies a container, let alone one holding quotes. -/
def pyRepr : JVal → String
  | .str s => "'" ++ s ++ "'"
  | .num n => toString n
  | .bool true => "True"
  | .bool false => "False"
  | .null => "None"
  | .obj fields => "\x7b" ++ pyReprFields fields ++ "\x7d"
  | .arr items => "[" ++ pyReprItems items ++ "]"

/-- `repr` of the inside of a dict (comma-joined `'k': v` pairs). -/
def pyReprFields : List (String × JVal) → String
  | [] => ""
  | [(k, v)] => "'" ++ k ++ "': " ++ pyRepr v
  | (k, v) :: rest => "'" ++ k ++ "': " ++ pyRepr v ++ ", " ++ pyReprFields rest

/-- `repr` of the inside of a list (comma-joined items). -/
def pyReprItems : List JVal → String
  | [] => ""
  | [v] => pyRepr v
  | v :: rest => pyRepr v ++ ", " ++ pyReprItems rest

end

/-- Python `str` of a JSON value, as used by f-string interpolation. -/
def pyStr : JVal → String
  | .str s => s
  | v => pyRepr v

/-- Python `s.lower()` on a string: per-character ASCII lowercasing.
This agrees with `str.lower` on ASCII, which covers every key of the type
table; no claim involves non-ASCII case folding. -/
def pyLowerStr (s : String) : String :=
  String.mk (s.data.map Char.toLower)

/-- Python `v.lower()`: `AttributeError` unless `v` is a string. -/
def pyLower : JVal → Except PyExc String
  | .str s => .ok (pyLowerStr s)
  | _ => .error .attributeError

/-- Python `str(b).lower()` for a `bool` argument. -/
def pyBoolStr (b : Bool) : String :=
  if b then "true" else "false"

/-- What the network did for one HTTP exchange: a response (status code,
raw body text, and the body's JSON parse when it is valid JSON), a
transport-level `httpx.RequestError`, or some other exception raised
during the call (carrying its type name and description). -/
inductive HttpOutcome where
  | response (status : Nat) (text : String) (json : Option JVal)
  | requestError (desc : String)
  | otherError (typeName : String) (desc : String)

/-- One call handed to the transport helper: relative endpoint, payload
(POST body or GET query parameters), and HTTP method. -/
structure SnRequest where
  endpoint : String
  payload : List (String × JVal)
  method : String

/-- Outcome of the inner `try` in the 4xx/5xx handler of
`_make_servicenow_request` (source lines 75-79): parse the error body and
raise a `ValueError` carrying the ServiceNow-specific message.
`response.json()` raises `json.JSONDecodeError` on a non-JSON body, and
`.get` raises `AttributeError` when the body or its `error` member is not
a dict. -/
inductive InnerOutcome where
  | jsonDecodeError
  | attributeError
  | valueError (msg : String)

/-- The inner `try` body of the HTTP-error handler: what exception it
raises (it always raises). -/
def snErrorInner (text : String) (json : Option JVal) : InnerOutcome :=
  match json with
  | none => .jsonDecodeError
  | some v =>
    match v with
    | .obj fields =>
      match pyGetD fields "error" (.obj []) with
      | .obj ef =>
        let message := pyStr (pyGetD ef "message" (.str "Unknown ServiceNow Error"))
        let detail := pyStr (pyGetD ef "detail" (.str text))
        .valueError ("ServiceNow API Error: " ++ message ++ " - " ++ detail)
      | _ => .attributeError
    | _ => .attributeError

/-- `_make_servicenow_request` (named without the leading underscore,
which the verification file avoids).  The URL construction, basic-auth
headers and 30-second timeout configure the external HTTP client and are
not modelled; the exchange itself is the `outcome` oracle.  The result is
the returned dict (`.ok`) or the message of the raised `ValueError`
(`.error`) — every exception this helper raises is a `ValueError`.

`response.raise_for_status()` raises `httpx.HTTPStatusError` exactly when
the status is not a 2xx success.  In the handler for that error, note that
the `ValueError` built from the parsed ServiceNow error body is raised
*inside* the inner `try`, so it is caught by that `try`'s own generic
`except Exception` clause and replaced by the raw details — exactly as in
the source.

For exceptions whose description is produced by the interpreter (the
`JSONDecodeError` / `AttributeError` raised while handling a 2xx body and
then stringified by the catch-all handler), the description text is
abstracted to the body text / empty: no claim depends on those strings. -/
def make_servicenow_request (method : String) (outcome : HttpOutcome) :
    Except String JVal :=
  if method ≠ "POST" ∧ method ≠ "GET" then
    -- `raise ValueError(f"Unsupported HTTP method: ...")` is itself caught
    -- by the catch-all `except Exception` of the same function.
    .error ("Unexpected error during ServiceNow request: ValueError - Unsupported HTTP method: "
      ++ method)
  else
    match outcome with
    | .requestError desc =>
      .error ("Could not connect to ServiceNow: Request Error: " ++ desc)
    | .otherError typeName desc =>
      .error ("Unexpected error during ServiceNow request: " ++ typeName ++ " - " ++ desc)
    | .response status text json =>
      if status < 200 ∨ 300 ≤ status then
        -- httpx.HTTPStatusError branch
        let error_details := "HTTP Error: " ++ toString status ++ " - " ++ text
        match snErrorInner text json with
        | .jsonDecodeError => .error error_details   -- except json.JSONDecodeError
        | .attributeError => .error error_details    -- except Exception as inner_e
        | .valueError _ => .error error_details      -- also caught by except Exception
      else if status = 204 then
        .ok (.obj [("status", .str "success"),
                   ("message", .str "Operation successful (No Content)")])
      else if status = 201 then
        match json with
        | none =>
          .error ("Unexpected error during ServiceNow request: JSONDecodeError - " ++ text)
        | some (.obj fields) =>
          .ok (pyGetD fields "result"
            (.obj [("status", .str "success"), ("message", .str "Record created")]))
        | some _ =>
          .error ("Unexpected error during ServiceNow request: AttributeError - ")
      else
        match json with
        | none =>
          .error ("Unexpected error during ServiceNow request: JSONDecodeError - " ++ text)
        | some (.obj fields) => .ok (pyGetD fields "result" (.obj []))
        | some _ =>
          .error ("Unexpected error during ServiceNow request: AttributeError - ")

/-- `sn_get`: build the collection-listing query and delegate.  Returns the
transport result together with the request that was issued. -/
def sn_get (table : String) (limit : Int) (outcome : HttpOutcome) :
    Except String JVal × SnRequest :=
  let params : List (String × JVal) :=
    [("sysparm_limit", .num limit), ("sysparm_display_value", .str "true")]
  (make_servicenow_request "GET" outcome,
   ⟨"api/now/table/" ++ table, params, "GET"⟩)

/-- `create_incident`.  Arguments follow the source signature (`None`
defaults become `Option`); the tool returns the string it would hand the
host (`.ok`) or the exception that escapes it (`.error`), plus the
requests issued. -/
def create_incident (short_description : String) (description : Option String)
    (caller_id : Option String) (urgency : Option String) (impact : Option String)
    (outcome : HttpOutcome) : Except PyExc String × List SnRequest :=
  let payload : List (String × JVal) :=
    [("short_description", .str short_description),
     ("description", .str (pyOrStr description short_description)),
     ("urgency", match urgency with | some u => .str u | none => .null),
     ("impact", match impact with | some i => .str i | none => .null)]
    ++ (match caller_id with
        | some c => if c == "" then [] else [("caller_id", JVal.str c)]
        | none => [])
  let req : SnRequest := ⟨"api/now/table/incident", payload, "POST"⟩
  let res : Except PyExc String :=
    match make_servicenow_request "POST" outcome with
    | .error e => .ok ("Error creating incident: " ++ e)
    | .ok result => do
      let n ← pyGet result "number" (.str "UNKNOWN")
      let sid ← pyGet result "sys_id" (.str "UNKNOWN")
      pure ("Successfully created incident " ++ pyStr n ++ " (Sys ID: " ++ pyStr sid ++ ").")
  (res, [req])

/-- `create_kb_article`. -/
def create_kb_article (short_description : String) (article_body : String)
    (kb_knowledge_base : Option String) (workflow_state : Option String)
    (outcome : HttpOutcome) : Except PyExc String × List SnRequest :=
  let payload : List (String × JVal) :=
    [("short_description", .str short_description),
     ("text", .str article_body),
     ("workflow_state", match workflow_state with | some w => .str w | none => .null),
     ("article_type", .str "text")]
    ++ (match kb_knowledge_base with
        | some k => if k == "" then [] else [("kb_knowledge_base", JVal.str k)]
        | none => [])
  let req : SnRequest := ⟨"api/now/table/kb_knowledge", payload, "POST"⟩
  let res : Except PyExc String :=
    match make_servicenow_request "POST" outcome with
    | .error e => .ok ("Error creating KB article: " ++ e)
    | .ok result => do
      let n ← pyGet result "number" (.str "UNKNOWN")
      let sid ← pyGet result "sys_id" (.str "UNKNOWN")
      pure ("Successfully created KB article " ++ pyStr n ++ " (Sys ID: " ++ pyStr sid ++ ").")
  (res, [req])

/-- `create_client_script`.  The cross-field check on `script_type` /
`field_name` runs before any request is issued. -/
def create_client_script (name table script ui_type script_type : String)
    (field_name : Option String) (is_active : Bool)
    (outcome : HttpOutcome) : Except PyExc String × List SnRequest :=
  if script_type == "onChange" && pyFalsyOptStr field_name then
    (.ok "Error: 'field_name' is required when script_type is 'onChange'.", [])
  else
    let payload : List (String × JVal) :=
      [("name", .str name),
       ("table", .str table),
       ("script", .str script),
       ("ui_type", .str ui_type),
       ("type", .str script_type),
       ("active", .str (pyBoolStr is_active))]
      ++ (match field_name with
          | some f => if f == "" then [] else [("field_name", JVal.str f)]
          | none => [])
    let req : SnRequest := ⟨"api/now/table/sys_script_client", payload, "POST"⟩
    let res : Except PyExc String :=
      match make_servicenow_request "POST" outcome with
      | .error e => .ok ("Error creating Client Script: " ++ e)
      | .ok result => do
        let nm ← pyGet result "name" (.str name)
        let sid ← pyGet result "sys_id" (.str "UNKNOWN")
        pure ("Successfully created Client Script '" ++ pyStr nm ++ "' (Sys ID: "
          ++ pyStr sid ++ ").")
    (res, [req])

/-- `create_business_rule`. -/
def create_business_rule (name table script when : String) (order : Int)
    (action_insert action_update action_delete action_query is_active : Bool)
    (outcome : HttpOutcome) : Except PyExc String × List SnRequest :=
  let payload : List (String × JVal) :=
    [("name", .str name),
     ("table", .str table),
     ("script", .str script),
     ("when", .str when),
     ("order", .num order),
     ("action_insert", .str (pyBoolStr action_insert)),
     ("action_update", .str (pyBoolStr action_update)),
     ("action_delete", .str (pyBoolStr action_delete)),
     ("action_query", .str (pyBoolStr action_query)),
     ("active", .str (pyBoolStr is_active)),
     ("collection", .str table)]
  let req : SnRequest := ⟨"api/now/table/sys_script", payload, "POST"⟩
  let res : Except PyExc String :=
    match make_servicenow_request "POST" outcome with
    | .error e => .ok ("Error creating Business Rule: " ++ e)
    | .ok result => do
      let nm ← pyGet result "name" (.str name)
      let sid ← pyGet result "sys_id" (.str "UNKNOWN")
      pure ("Successfully created Business Rule '" ++ pyStr nm ++ "' (Sys ID: "
        ++ pyStr sid ++ ").")
  (res, [req])

/-- Python `"%02d" % n` for the nonnegative minute/second fields (always
below 60). -/
def pyFmt02 (n : Nat) : String :=
  if n < 10 then "0" ++ toString n else toString n

/-- Python `str(datetime.timedelta(seconds=totalSeconds))` for an integer
number of seconds.  `timedelta` normalises to days (floor division, which
`Int.ediv`/`Int.emod` match for the positive divisors used here) plus a
nonnegative in-day remainder, prints `H:MM:SS` with unpadded hours, and
prefixes `D day[s], ` when the day count is nonzero (singular exactly for
±1 day).  The microsecond suffix never appears for integer seconds. -/
def pyTimedeltaStr (totalSeconds : Int) : String :=
  let days : Int := Int.ediv totalSeconds 86400
  let rem : Nat := (Int.emod totalSeconds 86400).toNat
  let hh := rem / 3600
  let mm := (rem % 3600) / 60
  let ss := rem % 60
  let hms := toString hh ++ ":" ++ pyFmt02 mm ++ ":" ++ pyFmt02 ss
  if days == 0 then hms
  else toString days ++ " day" ++ (if days == 1 || days == -1 then "" else "s")
    ++ ", " ++ hms

/-- Python `s.split('.')[0]`: the segment before the first dot. -/
def pySplitDotHead (s : String) : String :=
  String.mk (s.data.takeWhile (fun c => c ≠ '.'))

/-- Python `s.zfill(w)`.  Sign handling is omitted: the strings this is
applied to never start with a sign while short enough to be padded (the
shortest signed `timedelta` rendering already exceeds eight characters). -/
def pyZfill (w : Nat) (s : String) : String :=
  if w ≤ s.length then s
  else String.mk (List.replicate (w - s.length) '0') ++ s

/-- The glide-duration encoding of `create_sla_definition` (source lines
317-320). -/
def glideDuration (duration_seconds : Int) : String :=
  "1970-01-01 " ++ pyZfill 8 (pySplitDotHead (pyTimedeltaStr duration_seconds))

/-- `create_sla_definition`. -/
def create_sla_definition (name table : String) (duration_seconds : Int)
    (start_condition stop_condition pause_condition : Option String)
    (outcome : HttpOutcome) : Except PyExc String × List SnRequest :=
  let payload : List (String × JVal) :=
    [("name", .str name),
     ("target_table", .str table),
     ("duration", .str (glideDuration duration_seconds)),
     ("duration_type", .str "glide_duration"),
     ("type", .str "SLA"),
     ("active", .str "true")]
    ++ (match start_condition with
        | some c => if c == "" then [] else [("start_condition", JVal.str c)]
        | none => [])
    ++ (match stop_condition with
        | some c => if c == "" then [] else [("stop_condition", JVal.str c)]
        | none => [])
    ++ (match pause_condition with
        | some c => if c == "" then [] else [("pause_condition", JVal.str c)]
        | none => [])
  let req : SnRequest := ⟨"api/now/table/contract_sla", payload, "POST"⟩
  let res : Except PyExc String :=
    match make_servicenow_request "POST" outcome with
    | .error e => .ok ("Error creating SLA Definition: " ++ e)
    | .ok result => do
      let nm ← pyGet result "name" (.str name)
      let sid ← pyGet result "sys_id" (.str "UNKNOWN")
      pure ("Successfully created SLA Definition '" ++ pyStr nm ++ "' (Sys ID: "
        ++ pyStr sid ++ "). Conditions should be verified in ServiceNow UI.")
  (res, [req])

/-- A variable definition: the caller-supplied dict describing one catalog
variable. -/
def VarDef : Type := List (String × JVal)

/-- Python `'; '.join(msgs)`. -/
def joinSemi : List String → String
  | [] => ""
  | [m] => m
  | m :: rest => m ++ "; " ++ joinSemi rest

/-- Python `'\n'.join(lines)`. -/
def joinNL : List String → String
  | [] => ""
  | [m] => m
  | m :: rest => m ++ "\n" ++ joinNL rest

/-- The `var_type_map` literal shared (textually duplicated) by
`create_record_producer` and `create_variable_set`. -/
def var_type_map : List (String × String) :=
  [("string", "2"), ("integer", "9"), ("boolean", "6"), ("reference", "8"),
   ("choice", "3"), ("text", "1"), ("date", "5"), ("datetime", "4"),
   ("currency", "10"), ("price", "7")]

/-- Python `m.get(k, default)` on a string-to-string dict. -/
def lookupD (m : List (String × String)) (k : String) (default : String) : String :=
  ((m.find? (fun p => p.1 == k)).map (fun p => p.2)).getD default

/-- The dependent-variable payload built inside the per-item loop of
`create_record_producer` (`parentKey = "cat_item"`) and
`create_variable_set` (`parentKey = "variable_set"`); the two loop bodies
are verbatim copies of each other in the source, differing only in the
parent reference key and target endpoint.  `parentSysId` is the raw value
taken from the parent creation's result.  Looking up a non-string `type`
raises `AttributeError` (from `.lower()`), which the per-item
`except ValueError` does not catch. -/
def build_variable_payload (parentKey : String) (parentSysId : JVal)
    (v : VarDef) (idx : Nat) : Except PyExc (List (String × JVal)) := do
  let t1 ← pyLower (pyGetD v "type" (.str "string"))
  let base : List (String × JVal) :=
    [(parentKey, parentSysId),
     ("name", pyGetD v "name" (.str ("variable_" ++ toString idx))),
     ("question_text", pyGetD v "label" (pyGetD v "name" (.str ("Variable " ++ toString idx)))),
     ("type", .str (lookupD var_type_map t1 "2")),
     ("mandatory", .str (pyLowerStr (pyStr (pyGetD v "mandatory" (.bool false))))),
     ("order", .num ((Int.ofNat idx + 1) * 100)),
     ("help_text", pyGetD v "help_text" (.str "")),
     ("description", pyGetD v "description" (.str ""))]
  let withDefault : List (String × JVal) :=
    match dget v "default_value" with
    | some dv => base ++ [("default_value", .str (pyStr dv))]
    | none => base
  let t2 ← pyLower (pyGetD v "type" (.str ""))
  if t2 == "reference" && (dget v "reference_table").isSome then
    pure (withDefault ++ [("reference", (dget v "reference_table").getD .null)])
  else
    pure withDefault

/-- The per-variable loop shared by both composite tools (enumerate over
`variables` starting at `idx`, one dependent creation request per item,
`varEnv i` being the network's outcome for the item at enumeration index
`i`).  Transport `ValueError`s are caught per item and recorded as
messages; any other exception aborts the whole tool.  Returns the item
messages (or the escaping exception) and the requests actually issued. -/
def process_variables (endpoint parentKey : String) (parentSysId : JVal)
    (varEnv : Nat → HttpOutcome) (idx : Nat) :
    List VarDef → Except PyExc (List String) × List SnRequest
  | [] => (.ok [], [])
  | v :: rest =>
    let varName := pyStr (pyGetD v "name" (.str ("variable_" ++ toString idx)))
    match build_variable_payload parentKey parentSysId v idx with
    | .error ex => (.error ex, [])
    | .ok var_payload =>
      let req : SnRequest := ⟨endpoint, var_payload, "POST"⟩
      match make_servicenow_request "POST" (varEnv idx) with
      | .error e =>
        let msg := "Error adding variable '" ++ varName ++ "': " ++ e
        let (r, t) := process_variables endpoint parentKey parentSysId varEnv (idx + 1) rest
        (r.map (fun ms => msg :: ms), req :: t)
      | .ok var_result =>
        match pyGet1 var_result "sys_id" with
        | .error ex => (.error ex, [req])
        | .ok sidv =>
          let msg :=
            if pyTruthy sidv then "Added variable '" ++ varName ++ "'"
            else "Failed to add variable '" ++ varName ++ "'"
          let (r, t) := process_variables endpoint parentKey parentSysId varEnv (idx + 1) rest
          (r.map (fun ms => msg :: ms), req :: t)

/-- The variable-set attachment loop of `create_record_producer`
(`setEnv i` is the outcome of the request for the `i`-th set id). -/
def process_variable_sets (producerSysId : JVal) (setEnv : Nat → HttpOutcome)
    (idx : Nat) : List String → Except PyExc (List String) × List SnRequest
  | [] => (.ok [], [])
  | set_id :: rest =>
    let set_payload : List (String × JVal) :=
      [("sc_cat_item", producerSysId), ("variable_set", .str set_id)]
    let req : SnRequest := ⟨"api/now/table/io_set_item", set_payload, "POST"⟩
    match make_servicenow_request "POST" (setEnv idx) with
    | .error e =>
      let msg := "Error adding variable set (ID: " ++ set_id ++ "): " ++ e
      let (r, t) := process_variable_sets producerSysId setEnv (idx + 1) rest
      (r.map (fun ms => msg :: ms), req :: t)
    | .ok set_result =>
      match pyGet1 set_result "sys_id" with
      | .error ex => (.error ex, [req])
      | .ok sidv =>
        let msg :=
          if pyTruthy sidv then "Added variable set (ID: " ++ set_id ++ ")"
          else "Failed to add variable set (ID: " ++ set_id ++ ")"
        let (r, t) := process_variable_sets producerSysId setEnv (idx + 1) rest
        (r.map (fun ms => msg :: ms), req :: t)

/-- `create_record_producer`.  The source's `variables` argument is named
`var_defs` here (`variables` is a Lean keyword).  It and `variable_set_ids`
arguments default to `None` in the source; `None` and `[]` are
indistinguishable there (both skip the loops and count as "no variables
requested"), so both are modelled by `[]`.  `parentOutcome` is the
network's outcome for the parent creation, `setEnv` / `varEnv` those for
the dependent creations. -/
def create_record_producer (name table_name : String)
    (short_description category_sys_id script : Option String)
    (var_defs : List VarDef) (variable_set_ids : List String)
    (parentOutcome : HttpOutcome) (setEnv varEnv : Nat → HttpOutcome) :
    Except PyExc String × List SnRequest :=
  let payload : List (String × JVal) :=
    [("name", .str name),
     ("table_name", .str table_name),
     ("short_description", .str (pyOrStr short_description name)),
     ("active", .str "true"),
     ("sys_class_name", .str "sc_cat_item_producer")]
    ++ (match category_sys_id with
        | some c => if c == "" then [] else [("category", JVal.str c)]
        | none => [])
    ++ (match script with
        | some s => if s == "" then [] else [("script", JVal.str s)]
        | none => [])
  let req : SnRequest := ⟨"api/now/table/sc_cat_item_producer", payload, "POST"⟩
  match make_servicenow_request "POST" parentOutcome with
  | .error e => (.ok ("Error creating Record Producer: " ++ e), [req])
  | .ok result =>
    match result with
    | .obj rf =>
      let producer_name := pyStr (pyGetD rf "name" (.str name))
      let producer_sys_id := pyGetD rf "sys_id" (.str "")
      if pyFalsy producer_sys_id then
        (.ok "Error creating Record Producer: No sys_id returned from ServiceNow.", [req])
      else
        match process_variable_sets producer_sys_id setEnv 0 variable_set_ids with
        | (.error ex, setTrace) => (.error ex, req :: setTrace)
        | (.ok variable_set_messages, setTrace) =>
          match process_variables "api/now/table/item_option_new" "cat_item"
              producer_sys_id varEnv 0 var_defs with
          | (.error ex, varTrace) => (.error ex, req :: (setTrace ++ varTrace))
          | (.ok variable_messages, varTrace) =>
            let m1 := "Successfully created Record Producer '" ++ producer_name
              ++ "' (Sys ID: " ++ pyStr producer_sys_id ++ ")."
            let m2 :=
              if variable_set_messages.isEmpty then m1
              else m1 ++ "\nVariable Sets: " ++ joinSemi variable_set_messages
            let m3 :=
              if !variable_messages.isEmpty then
                m2 ++ "\nVariables: " ++ joinSemi variable_messages
              else if variable_set_messages.isEmpty && var_defs.isEmpty then
                m2 ++ " No variables were added."
              else m2
            (.ok m3, req :: (setTrace ++ varTrace))
    | _ => (.error .attributeError, [req])

/-- `create_variable_set`. -/
def create_variable_set (name : String) (description : Option String)
    (var_defs : List VarDef) (parentOutcome : HttpOutcome)
    (varEnv : Nat → HttpOutcome) : Except PyExc String × List SnRequest :=
  let payload : List (String × JVal) :=
    [("name", .str name),
     ("description", .str (pyOrStr description name)),
     ("active", .str "true")]
  let req : SnRequest := ⟨"api/now/table/io_set", payload, "POST"⟩
  match make_servicenow_request "POST" parentOutcome with
  | .error e => (.ok ("Error creating Variable Set: " ++ e), [req])
  | .ok result =>
    match result with
    | .obj rf =>
      let set_name := pyStr (pyGetD rf "name" (.str name))
      let set_sys_id := pyGetD rf "sys_id" (.str "")
      if pyFalsy set_sys_id then
        (.ok "Error creating Variable Set: No sys_id returned from ServiceNow.", [req])
      else
        match process_variables "api/now/table/io_set_variable" "variable_set"
            set_sys_id varEnv 0 var_defs with
        | (.error ex, varTrace) => (.error ex, req :: varTrace)
        | (.ok variable_messages, varTrace) =>
          let m1 := "Successfully created Variable Set '" ++ set_name
            ++ "' (Sys ID: " ++ pyStr set_sys_id ++ ")."
          let m2 :=
            if !variable_messages.isEmpty then
              m1 ++ "\nVariables: " ++ joinSemi variable_messages
            else m1 ++ " No variables were added."
          (.ok m2, req :: varTrace)
    | _ => (.error .attributeError, [req])

/-- `pat` occurs as a contiguous run inside `l`. -/
def listContainsSub (pat : List Char) : List Char → Bool
  | [] => pat.isEmpty
  | a :: rest => pat.isPrefixOf (a :: rest) || listContainsSub pat rest

/-- `pat` occurs as a contiguous substring of `s`. -/
def strContains (s pat : String) : Bool :=
  listContainsSub pat.data s.data

/-- Python `k in v` for a string `k`: key membership for dicts, element
equality for lists, substring for strings, `TypeError` otherwise. -/
def pyContains (v : JVal) (k : String) : Except PyExc Bool :=
  match v with
  | .obj f => .ok (f.any (fun p => p.1 == k))
  | .arr l => .ok (l.any (fun el => match el with | .str s => s == k | _ => false))
  | .str s => .ok (strContains s k)
  | _ => .error .typeError

/-- Python `v[k]` for a string key: dict subscription (`KeyError` when the
key is absent), `TypeError` on every other value. -/
def pyIndex (v : JVal) (k : String) : Except PyExc JVal :=
  match v with
  | .obj f =>
    match dget f k with
    | some x => .ok x
    | none => .error .keyError
  | _ => .error .typeError

/-- Python iteration `for x in v`: list elements, string characters, dict
keys; `TypeError` on non-iterables. -/
def pyIterate (v : JVal) : Except PyExc (List JVal) :=
  match v with
  | .arr l => .ok l
  | .str s => .ok (s.data.map (fun c => JVal.str (String.mk [c])))
  | .obj f => .ok (f.map (fun p => JVal.str p.1))
  | _ => .error .typeError

/-- Python `len(v)`. -/
def pyLen (v : JVal) : Except PyExc Nat :=
  match v with
  | .arr l => .ok l.length
  | .str s => .ok s.length
  | .obj f => .ok f.length
  | _ => .error .typeError

/-- `get_incidents`.  The clamp runs inside the tool's `try`, before the
GET is issued. -/
def get_incidents (limit : Int) (outcome : HttpOutcome) :
    Except PyExc String × List SnRequest :=
  let limit2 := if limit > 100 then 100 else limit
  let (r, req) := sn_get "incident" limit2 outcome
  let res : Except PyExc String :=
    match r with
    | .error e => .ok ("Error retrieving incidents: " ++ e)
    | .ok result =>
      if pyFalsy result then .ok "No incidents found or error retrieving incidents."
      else do
        let mem ← pyContains result "result"
        if !mem then pure "No incidents found or error retrieving incidents."
        else do
          let incidents ← pyIndex result "result"
          if pyFalsy incidents then pure "No incidents found."
          else do
            let items ← pyIterate incidents
            let lines ← items.mapM (fun incident => do
              let number ← pyGet incident "number" (.str "N/A")
              let sd ← pyGet incident "short_description" (.str "No description")
              let st ← pyGet incident "state" (.str "N/A")
              let pr ← pyGet incident "priority" (.str "N/A")
              pure ("• " ++ pyStr number ++ ": " ++ pyStr sd ++ " (State: "
                ++ pyStr st ++ ", Priority: " ++ pyStr pr ++ ")"))
            let n ← pyLen incidents
            pure ("Retrieved " ++ toString n ++ " incidents:\n" ++ joinNL lines)
  (res, [req])

/-- `get_change_requests`. -/
def get_change_requests (limit : Int) (outcome : HttpOutcome) :
    Except PyExc String × List SnRequest :=
  let limit2 := if limit > 100 then 100 else limit
  let (r, req) := sn_get "change_request" limit2 outcome
  let res : Except PyExc String :=
    match r with
    | .error e => .ok ("Error retrieving change requests: " ++ e)
    | .ok result =>
      if pyFalsy result then .ok "No change requests found or error retrieving change requests."
      else do
        let mem ← pyContains result "result"
        if !mem then pure "No change requests found or error retrieving change requests."
        else do
          let changes ← pyIndex result "result"
          if pyFalsy changes then pure "No change requests found."
          else do
            let items ← pyIterate changes
            let lines ← items.mapM (fun change => do
              let number ← pyGet change "number" (.str "N/A")
              let sd ← pyGet change "short_description" (.str "No description")
              let st ← pyGet change "state" (.str "N/A")
              let rk ← pyGet change "risk" (.str "N/A")
              pure ("• " ++ pyStr number ++ ": " ++ pyStr sd ++ " (State: "
                ++ pyStr st ++ ", Risk: " ++ pyStr rk ++ ")"))
            let n ← pyLen changes
            pure ("Retrieved " ++ toString n ++ " change requests:\n" ++ joinNL lines)
  (res, [req])

/-- `get_users`. -/
def get_users (limit : Int) (outcome : HttpOutcome) :
    Except PyExc String × List SnRequest :=
  let limit2 := if limit > 100 then 100 else limit
  let (r, req) := sn_get "sys_user" limit2 outcome
  let res : Except PyExc String :=
    match r with
    | .error e => .ok ("Error retrieving users: " ++ e)
    | .ok result =>
      if pyFalsy result then .ok "No users found or error retrieving users."
      else do
        let mem ← pyContains result "result"
        if !mem then pure "No users found or error retrieving users."
        else do
          let users ← pyIndex result "result"
          if pyFalsy users then pure "No users found."
          else do
            let items ← pyIterate users
            let lines ← items.mapM (fun user => do
              let un ← pyGet user "user_name" (.str "N/A")
              let nm ← pyGet user "name" (.str "No name")
              let em ← pyGet user "email" (.str "N/A")
              let ac ← pyGet user "active" (.str "N/A")
              pure ("• " ++ pyStr un ++ ": " ++ pyStr nm ++ " (Email: "
                ++ pyStr em ++ ", Active: " ++ pyStr ac ++ ")"))
            let n ← pyLen users
            pure ("Retrieved " ++ toString n ++ " users:\n" ++ joinNL lines)
  (res, [req])

/-- Spec-side: eight characters of the shape `HH:MM:SS` (digits and
colons). -/
def isHMS8 (l : List Char) : Bool :=
  match l with
  | [h1, h2, c1, m1, m2, c2, s1, s2] =>
    h1.isDigit && h2.isDigit && c1 == ':' && m1.isDigit && m2.isDigit
      && c2 == ':' && s1.isDigit && s2.isDigit
  | _ => false

/-- Spec-side: the string has the exact shape `1970-01-01 HH:MM:SS`
required by the spec's glide-duration convention. -/
def specGlideForm (s : String) : Bool :=
  (s.data.take 11 == "1970-01-01 ".data) && isHMS8 (s.data.drop 11)

/-- Spec-side: `v` occurs verbatim (as a contiguous substring) in `s`. -/
def containsSub (v s : String) : Prop :=
  ∃ a b, s = a ++ (v ++ b)

/-- Spec-side: the number of positions at which `pat` occurs in `s`. -/
def countSub (pat s : String) : Nat :=
  ((List.range (s.data.length + 1)).filter
    (fun i => pat.data.isPrefixOf (s.data.drop i))).length

/-- The `if limit > 100` clamp of the listing tools computes
`min limit 100`. -/
theorem clamp_eq_min (limit : Int) :
    (if limit > 100 then (100 : Int) else limit) = min limit 100 := by
  rcases le_or_lt limit 100 with h | h
  · rw [if_neg (not_lt.mpr h), min_eq_left h]
  · rw [if_pos h, min_eq_right h.le]

/-- On a 4xx/5xx response the transport helper raises a `ValueError` whose
message is always the raw status and body text, whatever the body parses
to. -/
theorem make_request_status_error (status : Nat) (text : String)
    (json : Option JVal) (h : status < 200 ∨ 300 ≤ status) :
    make_servicenow_request "POST" (.response status text json)
      = .error ("HTTP Error: " ++ toString status ++ " - " ++ text) := by
  cases hsn : snErrorInner text json <;>
    simp [make_servicenow_request, h, hsn]

/-- C1: claimed — on every 4xx/5xx response the helper fails with a typed
error whose message, for a JSON body containing an `error` object, is
built from that object's `message` and `detail` sub-fields, and otherwise
is the raw status and body text.  What the code actually does: the
`ValueError` carrying the ServiceNow-specific message is raised inside the
inner `try` and therefore caught by that `try`'s own `except Exception`
clause, which re-raises the raw details instead — so the message is the
raw status and body text for *every* body, JSON or not.  The first
conjunct proves the raw message is always used; the remaining conjuncts
evaluate the failing input, showing the intended `ServiceNow API Error:
M - D` message being constructed by the inner `try` body and then
discarded by the function. -/
theorem http_error_message_always_raw :
    (∀ (status : Nat) (text : String) (json : Option JVal),
      400 ≤ status → status ≤ 599 →
      make_servicenow_request "POST" (.response status text json)
        = .error ("HTTP Error: " ++ toString status ++ " - " ++ text))
    ∧ snErrorInner "rawbody"
        (some (.obj [("error", .obj [("message", .str "M"), ("detail", .str "D")])]))
        = .valueError "ServiceNow API Error: M - D"
    ∧ make_servicenow_request "POST"
        (.response 400 "rawbody"
          (some (.obj [("error", .obj [("message", .str "M"), ("detail", .str "D")])])))
        = .error "HTTP Error: 400 - rawbody" := by
  refine ⟨fun status text json h4 h6 => ?_, rfl, rfl⟩
  exact make_request_status_error status text json (Or.inr (by omega))

/-- Witness for `http_error_message_always_raw` at status 404. -/
theorem http_error_message_always_raw_witness :
    make_servicenow_request "POST" (.response 404 "gone" none)
      = .error ("HTTP Error: " ++ toString 404 ++ " - " ++ "gone") :=
  http_error_message_always_raw.1 404 "gone" none (by decide) (by decide)

/-- C3: claimed — for every nonnegative `duration_seconds` the SLA payload
duration has the shape `1970-01-01 HH:MM:SS`, and 28800 yields
`1970-01-01 08:00:00`.  What the code actually does: for durations of a
day or more, `str(timedelta)` switches to the `D day[s], H:MM:SS`
rendering, so the payload is e.g. `1970-01-01 1 day, 0:00:00`, which is
not of the claimed (and intended — the source comments promise
`HH:MM:SS`) shape.  Below-one-day durations and the 28800 example do
conform. -/
theorem sla_duration_day_overflow :
    glideDuration 86400 = "1970-01-01 1 day, 0:00:00"
    ∧ specGlideForm (glideDuration 86400) = false
    ∧ glideDuration 28800 = "1970-01-01 08:00:00"
    ∧ specGlideForm (glideDuration 28800) = true
    ∧ ((create_sla_definition "resp" "incident" 86400 none none none
          (.requestError "net")).2.map (fun r => dget r.payload "duration"))
        = [some (.str "1970-01-01 1 day, 0:00:00")]
    ∧ ((create_sla_definition "resp" "incident" 28800 none none none
          (.requestError "net")).2.map (fun r => dget r.payload "duration"))
        = [some (.str "1970-01-01 08:00:00")] := by
  refine ⟨rfl, rfl, rfl, rfl, rfl, rfl⟩

/-- C4: claimed — every tool returns a string on every outcome of the
HTTP call and never propagates a fault.  What the code actually does: the
tools catch only `ValueError`; when the transport helper succeeds but the
body's `result` member is not a dict (a 201 whose body is
`\x7b"result": "oops"\x7d`), `result.get("number", ...)` raises an
`AttributeError` that no `except` clause catches, so a fault escapes
`create_incident` instead of a string. -/
theorem create_incident_attribute_error_escapes :
    (create_incident "boom" none none (some "3") (some "3")
      (.response 201 "t" (some (.obj [("result", .str "oops")])))).1
      = .error .attributeError := rfl

/-- C7: `create_client_script` with `script_type = "onChange"` and an
absent (`None`) or empty `field_name` returns the validation error string
and issues no request at all. -/
theorem client_script_onchange_validation (name table script ui_type : String)
    (field_name : Option String) (is_active : Bool) (outcome : HttpOutcome)
    (h : field_name = none ∨ field_name = some "") :
    create_client_script name table script ui_type "onChange" field_name
        is_active outcome
      = (.ok "Error: 'field_name' is required when script_type is 'onChange'.", []) := by
  rcases h with h | h <;> subst h <;> rfl

/-- Witness for `client_script_onchange_validation`. -/
theorem client_script_onchange_validation_witness :
    create_client_script "n" "incident" "code" "all" "onChange" none true
        (.requestError "net down")
      = (.ok "Error: 'field_name' is required when script_type is 'onChange'.", []) :=
  client_script_onchange_validation "n" "incident" "code" "all" none true
    (.requestError "net down") (Or.inl rfl)

/-- C9: every listing tool clamps the requested limit to 100 before the
GET, so the issued request's `sysparm_limit` is `min limit 100`, and the
query always carries `sysparm_display_value=true` and method GET.  This
holds for every outcome of the call (the trace does not depend on it). -/
theorem listing_tools_clamp_limit (limit : Int) (outcome : HttpOutcome) :
    (get_incidents limit outcome).2
      = [⟨"api/now/table/incident",
          [("sysparm_limit", .num (min limit 100)),
           ("sysparm_display_value", .str "true")], "GET"⟩]
    ∧ (get_change_requests limit outcome).2
      = [⟨"api/now/table/change_request",
          [("sysparm_limit", .num (min limit 100)),
           ("sysparm_display_value", .str "true")], "GET"⟩]
    ∧ (get_users limit outcome).2
      = [⟨"api/now/table/sys_user",
          [("sysparm_limit", .num (min limit 100)),
           ("sysparm_display_value", .str "true")], "GET"⟩] := by
  refine ⟨?_, ?_, ?_⟩ <;>
    simp [get_incidents, get_change_requests, get_users, sn_get, clamp_eq_min]

/-- C10: when the transport helper reports success but the result mapping
lacks a `number` or `sys_id` key, `create_incident` and
`create_kb_article` still return a success-formatted confirmation string,
with the literal `UNKNOWN` substituted exactly for each missing identifier
and any present identifier echoed unchanged.  Each identifier is handled
independently: `nOpt`/`sOpt` record, per key, whether the mapping holds a
string value for it (`some`) or lacks it (`none`), and the conclusion
covers every combination. -/
theorem creation_missing_ids_unknown (sd ab : String) (d c u i kb ws : Option String)
    (o1 o2 : HttpOutcome) (R1 R2 : List (String × JVal))
    (nOpt1 sOpt1 nOpt2 sOpt2 : Option String)
    (h1 : make_servicenow_request "POST" o1 = .ok (.obj R1))
    (hn1 : dget R1 "number" = Option.map JVal.str nOpt1)
    (hs1 : dget R1 "sys_id" = Option.map JVal.str sOpt1)
    (h2 : make_servicenow_request "POST" o2 = .ok (.obj R2))
    (hn2 : dget R2 "number" = Option.map JVal.str nOpt2)
    (hs2 : dget R2 "sys_id" = Option.map JVal.str sOpt2) :
    (create_incident sd d c u i o1).1
      = .ok ("Successfully created incident " ++ nOpt1.getD "UNKNOWN"
          ++ " (Sys ID: " ++ sOpt1.getD "UNKNOWN" ++ ").")
    ∧ (create_kb_article sd ab kb ws o2).1
      = .ok ("Successfully created KB article " ++ nOpt2.getD "UNKNOWN"
          ++ " (Sys ID: " ++ sOpt2.getD "UNKNOWN" ++ ").") := by
  constructor
  · rcases nOpt1 with _ | v <;> rcases sOpt1 with _ | w <;>
      simp only [Option.map_none', Option.map_some'] at hn1 hs1 <;>
      simp only [create_incident, h1, pyGet, pyGetD, hn1, hs1] <;> rfl
  · rcases nOpt2 with _ | v <;> rcases sOpt2 with _ | w <;>
      simp only [Option.map_none', Option.map_some'] at hn2 hs2 <;>
      simp only [create_kb_article, h2, pyGet, pyGetD, hn2, hs2] <;> rfl

/-- Witness for `creation_missing_ids_unknown`, exercising the
exactly-one-missing cases: `create_incident` sees a result holding
`sys_id` but no `number` (so `UNKNOWN` replaces only the number), and
`create_kb_article` one holding `number` but no `sys_id`. -/
theorem creation_missing_ids_unknown_witness :
    (create_incident "s" none none (some "3") (some "3")
        (.response 201 "t" (some (.obj [("result",
          .obj [("sys_id", .str "abc")])])))).1
      = .ok "Successfully created incident UNKNOWN (Sys ID: abc)."
    ∧ (create_kb_article "s" "body" none (some "draft")
        (.response 201 "t" (some (.obj [("result",
          .obj [("number", .str "KB1")])])))).1
      = .ok "Successfully created KB article KB1 (Sys ID: UNKNOWN)." :=
  creation_missing_ids_unknown "s" "body" none none (some "3") (some "3")
    none (some "draft")
    (.response 201 "t" (some (.obj [("result", .obj [("sys_id", .str "abc")])])))
    (.response 201 "t" (some (.obj [("result", .obj [("number", .str "KB1")])])))
    [("sys_id", .str "abc")] [("number", .str "KB1")]
    none (some "abc") (some "KB1") none
    rfl rfl rfl rfl rfl rfl

/-- C2 counterexample: `create_client_script` given a 201 response whose
result carries both `number` and `sys_id` returns a confirmation that
echoes the script name and `sys_id` but does not contain the `number`
anywhere — the claim's "every creation tool" fails for it (and likewise
for the other tools whose confirmations are built from name and sys_id
only). -/
theorem create_client_script_omits_number :
    (create_client_script "csname" "incident" "code" "all" "onLoad" none true
      (.response 201 "t" (some (.obj [("result",
        .obj [("number", .str "NUM123"), ("sys_id", .str "SID1"),
              ("name", .str "scriptx")])])))).1
      = .ok "Successfully created Client Script 'scriptx' (Sys ID: SID1)."
    ∧ strContains "Successfully created Client Script 'scriptx' (Sys ID: SID1)."
        "NUM123" = false
    ∧ strContains "Successfully created Client Script 'scriptx' (Sys ID: SID1)."
        "SID1" = true := by
  refine ⟨rfl, rfl, rfl⟩

/-- C2 amended: for `create_incident` and `create_kb_article`, a
successful 201 response whose parsed result carries `number` and `sys_id`
yields a confirmation string containing both values verbatim. -/
theorem incident_kb_confirmation_contains_ids (sd ab : String)
    (d c u i kb ws : Option String) (o1 o2 : HttpOutcome)
    (R1 R2 : List (String × JVal)) (num1 sid1 num2 sid2 : String)
    (h1 : make_servicenow_request "POST" o1 = .ok (.obj R1))
    (hn1 : dget R1 "number" = some (.str num1))
    (hs1 : dget R1 "sys_id" = some (.str sid1))
    (h2 : make_servicenow_request "POST" o2 = .ok (.obj R2))
    (hn2 : dget R2 "number" = some (.str num2))
    (hs2 : dget R2 "sys_id" = some (.str sid2)) :
    (∃ s, (create_incident sd d c u i o1).1 = .ok s
      ∧ containsSub num1 s ∧ containsSub sid1 s)
    ∧ (∃ s, (create_kb_article sd ab kb ws o2).1 = .ok s
      ∧ containsSub num2 s ∧ containsSub sid2 s) := by
  constructor
  · refine ⟨"Successfully created incident " ++ num1 ++ " (Sys ID: "
      ++ sid1 ++ ").", ?_, ?_, ?_⟩
    · simp only [create_incident, h1, pyGet, pyGetD, hn1, hs1]
      rfl
    · exact ⟨"Successfully created incident ", " (Sys ID: " ++ sid1 ++ ").",
        by simp only [String.append_assoc]⟩
    · exact ⟨"Successfully created incident " ++ num1 ++ " (Sys ID: ", ").",
        by simp only [String.append_assoc]⟩
  · refine ⟨"Successfully created KB article " ++ num2 ++ " (Sys ID: "
      ++ sid2 ++ ").", ?_, ?_, ?_⟩
    · simp only [create_kb_article, h2, pyGet, pyGetD, hn2, hs2]
      rfl
    · exact ⟨"Successfully created KB article ", " (Sys ID: " ++ sid2 ++ ").",
        by simp only [String.append_assoc]⟩
    · exact ⟨"Successfully created KB article " ++ num2 ++ " (Sys ID: ", ").",
        by simp only [String.append_assoc]⟩

/-- Witness for `incident_kb_confirmation_contains_ids`. -/
theorem incident_kb_confirmation_contains_ids_witness :
    (∃ s, (create_incident "s" none none (some "3") (some "3")
        (.response 201 "t" (some (.obj [("result",
          .obj [("number", .str "INC001"), ("sys_id", .str "abc")])])))).1
        = .ok s
      ∧ containsSub "INC001" s ∧ containsSub "abc" s)
    ∧ (∃ s, (create_kb_article "s" "b" none (some "draft")
        (.response 201 "t" (some (.obj [("result",
          .obj [("number", .str "KB001"), ("sys_id", .str "def")])])))).1
        = .ok s
      ∧ containsSub "KB001" s ∧ containsSub "def" s) :=
  incident_kb_confirmation_contains_ids "s" "b" none none (some "3") (some "3")
    none (some "draft")
    (.response 201 "t" (some (.obj [("result",
      .obj [("number", .str "INC001"), ("sys_id", .str "abc")])])))
    (.response 201 "t" (some (.obj [("result",
      .obj [("number", .str "KB001"), ("sys_id", .str "def")])])))
    [("number", .str "INC001"), ("sys_id", .str "abc")]
    [("number", .str "KB001"), ("sys_id", .str "def")]
    "INC001" "abc" "KB001" "def" rfl rfl rfl rfl rfl rfl

/-- C6: when the parent creation's result contains no non-empty `sys_id`
(the key is absent or holds the empty string), both composite tools return
the abort error string immediately and the only request ever issued is the
parent creation — no variable-set attachment and no variable creation is
attempted, whatever the dependent outcomes would have been. -/
theorem composite_abort_without_sys_id
    (name tn : String) (sdo cat scr desc : Option String) (vds : List VarDef)
    (vsids : List String) (o1 o2 : HttpOutcome) (R1 R2 : List (String × JVal))
    (setEnv varEnv varEnv2 : Nat → HttpOutcome)
    (h1 : make_servicenow_request "POST" o1 = .ok (.obj R1))
    (hs1 : dget R1 "sys_id" = none ∨ dget R1 "sys_id" = some (.str ""))
    (h2 : make_servicenow_request "POST" o2 = .ok (.obj R2))
    (hs2 : dget R2 "sys_id" = none ∨ dget R2 "sys_id" = some (.str "")) :
    ((create_record_producer name tn sdo cat scr vds vsids o1 setEnv varEnv).1
        = .ok "Error creating Record Producer: No sys_id returned from ServiceNow."
      ∧ (create_record_producer name tn sdo cat scr vds vsids o1 setEnv varEnv).2.map
          (fun r => r.endpoint) = ["api/now/table/sc_cat_item_producer"])
    ∧ ((create_variable_set name desc vds o2 varEnv2).1
        = .ok "Error creating Variable Set: No sys_id returned from ServiceNow."
      ∧ (create_variable_set name desc vds o2 varEnv2).2.map (fun r => r.endpoint)
        = ["api/now/table/io_set"]) := by
  have e1 : pyFalsy (pyGetD R1 "sys_id" (.str "")) = true := by
    rcases hs1 with h | h <;> simp [pyGetD, h, pyFalsy]
  have e2 : pyFalsy (pyGetD R2 "sys_id" (.str "")) = true := by
    rcases hs2 with h | h <;> simp [pyGetD, h, pyFalsy]
  refine ⟨⟨?_, ?_⟩, ?_, ?_⟩ <;>
    simp [create_record_producer, create_variable_set, h1, h2, e1, e2]

/-- Witness for `composite_abort_without_sys_id`: a 201 whose result is
the empty mapping. -/
theorem composite_abort_without_sys_id_witness :
    ((create_record_producer "P" "incident" none none none
        [[("name", .str "v1")]] ["set1"]
        (.response 201 "t" (some (.obj [("result", .obj [])])))
        (fun _ => .requestError "unused") (fun _ => .requestError "unused")).1
      = .ok "Error creating Record Producer: No sys_id returned from ServiceNow."
      ∧ (create_record_producer "P" "incident" none none none
        [[("name", .str "v1")]] ["set1"]
        (.response 201 "t" (some (.obj [("result", .obj [])])))
        (fun _ => .requestError "unused") (fun _ => .requestError "unused")).2.map
          (fun r => r.endpoint) = ["api/now/table/sc_cat_item_producer"])
    ∧ ((create_variable_set "P" none [[("name", .str "v1")]]
        (.response 201 "t" (some (.obj [("result", .obj [])])))
        (fun _ => .requestError "unused")).1
      = .ok "Error creating Variable Set: No sys_id returned from ServiceNow."
      ∧ (create_variable_set "P" none [[("name", .str "v1")]]
        (.response 201 "t" (some (.obj [("result", .obj [])])))
        (fun _ => .requestError "unused")).2.map (fun r => r.endpoint)
        = ["api/now/table/io_set"]) :=
  composite_abort_without_sys_id "P" "incident" none none none none
    [[("name", .str "v1")]] ["set1"]
    (.response 201 "t" (some (.obj [("result", .obj [])])))
    (.response 201 "t" (some (.obj [("result", .obj [])])))
    [] [] (fun _ => .requestError "unused") (fun _ => .requestError "unused")
    (fun _ => .requestError "unused")
    rfl (Or.inl rfl) rfl (Or.inl rfl)

/-- C8: for every variable definition processed by the composite tools
(whose dependent-creation payloads are built by `build_variable_payload`
with parent key `cat_item` resp. `variable_set`), the payload's `type`
field is the fixed-table code of the lowercased type name with default
`"2"`; an omitted type also yields the string code `"2"`; the table maps
`boolean` to `"6"` and any unrecognized name falls back to `"2"`. -/
theorem variable_type_code (pk : String) (pid : JVal) (v : VarDef) (idx : Nat)
    (hpk : pk = "cat_item" ∨ pk = "variable_set") :
    (∀ t : String, dget v "type" = some (.str t) →
      ∃ p, build_variable_payload pk pid v idx = .ok p
        ∧ dget p "type" = some (.str (lookupD var_type_map (pyLowerStr t) "2")))
    ∧ (dget v "type" = none →
      ∃ p, build_variable_payload pk pid v idx = .ok p
        ∧ dget p "type" = some (.str "2"))
    ∧ lookupD var_type_map "boolean" "2" = "6"
    ∧ lookupD var_type_map "unknown_type" "2" = "2" := by
  refine ⟨?_, ?_, rfl, rfl⟩
  · intro t ht
    simp only [build_variable_payload, pyGetD, ht, Option.getD_some, pyLower,
      bind, Except.bind]
    rcases hd : dget v "default_value" with _ | dv <;> simp only [hd] <;>
    · split
      · rcases hpk with hpk | hpk <;> subst hpk <;> exact ⟨_, rfl, rfl⟩
      · rcases hpk with hpk | hpk <;> subst hpk <;> exact ⟨_, rfl, rfl⟩
  · intro ht
    simp only [build_variable_payload, pyGetD, ht, Option.getD_none, pyLower,
      bind, Except.bind]
    rcases hd : dget v "default_value" with _ | dv <;> simp only [hd] <;>
    · split
      · rcases hpk with hpk | hpk <;> subst hpk <;> exact ⟨_, rfl, rfl⟩
      · rcases hpk with hpk | hpk <;> subst hpk <;> exact ⟨_, rfl, rfl⟩

/-- Witness for `variable_type_code`: a `boolean`-typed definition gets
code `"6"`. -/
theorem variable_type_code_witness :
    ∃ p, build_variable_payload "cat_item" .null [("type", JVal.str "boolean")] 0
        = .ok p
      ∧ dget p "type" = some (.str (lookupD var_type_map (pyLowerStr "boolean") "2")) :=
  (variable_type_code "cat_item" .null [("type", JVal.str "boolean")] 0
    (Or.inl rfl)).1 "boolean" rfl

set_option maxRecDepth 8192 in
/-- C5: in `create_record_producer`, when the parent creation succeeds
(non-empty `sys_id`) and one of two requested variables fails, each item
contributes its own success/failure message, the failure does not abort
the remaining items (both orders are proved), and the result always
carries the parent's name and sys_id.  The final conjuncts evaluate the
concrete two-variable scenario and count exactly one success marker and
one failure marker in it. -/
theorem record_producer_partial_failure
    (name tn sid n1 n2 errText t0 t1 : String) (hsid : sid ≠ "") :
    (∃ s, (create_record_producer name tn none none none
        [[("name", .str n1)], [("name", .str n2)]] []
        (.response 201 t0 (some (.obj [("result", .obj [("sys_id", .str sid)])])))
        (fun _ => .requestError "unused")
        (fun i => if i == 0
          then .response 201 t1 (some (.obj [("result", .obj [("sys_id", .str "vid")])]))
          else .response 400 errText (some (.obj [])))).1 = .ok s
      ∧ s = "Successfully created Record Producer '" ++ name ++ "' (Sys ID: "
          ++ sid ++ ").\nVariables: Added variable '" ++ n1
          ++ "'; Error adding variable '" ++ n2 ++ "': HTTP Error: 400 - " ++ errText
      ∧ containsSub name s ∧ containsSub sid s)
    ∧ (∃ s, (create_record_producer name tn none none none
        [[("name", .str n1)], [("name", .str n2)]] []
        (.response 201 t0 (some (.obj [("result", .obj [("sys_id", .str sid)])])))
        (fun _ => .requestError "unused")
        (fun i => if i == 0
          then .response 400 errText (some (.obj []))
          else .response 201 t1 (some (.obj [("result", .obj [("sys_id", .str "vid")])])))).1
          = .ok s
      ∧ s = "Successfully created Record Producer '" ++ name ++ "' (Sys ID: "
          ++ sid ++ ").\nVariables: Error adding variable '" ++ n1
          ++ "': HTTP Error: 400 - " ++ errText ++ "; Added variable '" ++ n2 ++ "'"
      ∧ containsSub name s ∧ containsSub sid s)
    ∧ (create_record_producer "P" "incident" none none none
        [[("name", .str "v1")], [("name", .str "v2")]] []
        (.response 201 "t" (some (.obj [("result", .obj [("sys_id", .str "psid")])])))
        (fun _ => .requestError "unused")
        (fun i => if i == 0
          then .response 201 "t" (some (.obj [("result", .obj [("sys_id", .str "vid")])]))
          else .response 400 "oops" (some (.obj [])))).1
      = .ok "Successfully created Record Producer 'P' (Sys ID: psid).\nVariables: Added variable 'v1'; Error adding variable 'v2': HTTP Error: 400 - oops"
    ∧ countSub "Added variable"
        "Successfully created Record Producer 'P' (Sys ID: psid).\nVariables: Added variable 'v1'; Error adding variable 'v2': HTTP Error: 400 - oops" = 1
    ∧ countSub "Error adding variable"
        "Successfully created Record Producer 'P' (Sys ID: psid).\nVariables: Added variable 'v1'; Error adding variable 'v2': HTTP Error: 400 - oops" = 1 := by
  have hb : (sid == "") = false := beq_eq_false_iff_ne.mpr hsid
  refine ⟨⟨_, ?_, rfl, ?_, ?_⟩, ⟨_, ?_, rfl, ?_, ?_⟩, rfl, rfl, rfl⟩
  · simp [create_record_producer, make_servicenow_request, snErrorInner,
      process_variable_sets, process_variables, build_variable_payload,
      pyGetD, dget, pyGet, pyGet1, pyFalsy, pyTruthy, pyStr, pyLower, pyLowerStr,
      pyOrStr, joinSemi, lookupD, var_type_map, hb, String.append_assoc,
      bind, Except.bind, Except.map, pure, Except.pure, pyRepr]
    rfl
  · exact ⟨"Successfully created Record Producer '",
      "' (Sys ID: " ++ sid ++ ").\nVariables: Added variable '" ++ n1
        ++ "'; Error adding variable '" ++ n2 ++ "': HTTP Error: 400 - " ++ errText,
      by simp only [String.append_assoc]⟩
  · exact ⟨"Successfully created Record Producer '" ++ name ++ "' (Sys ID: ",
      ").\nVariables: Added variable '" ++ n1
        ++ "'; Error adding variable '" ++ n2 ++ "': HTTP Error: 400 - " ++ errText,
      by simp only [String.append_assoc]⟩
  · simp [create_record_producer, make_servicenow_request, snErrorInner,
      process_variable_sets, process_variables, build_variable_payload,
      pyGetD, dget, pyGet, pyGet1, pyFalsy, pyTruthy, pyStr, pyLower, pyLowerStr,
      pyOrStr, joinSemi, lookupD, var_type_map, hb, String.append_assoc,
      bind, Except.bind, Except.map, pure, Except.pure, pyRepr]
    rfl
  · exact ⟨"Successfully created Record Producer '",
      "' (Sys ID: " ++ sid ++ ").\nVariables: Error adding variable '" ++ n1
        ++ "': HTTP Error: 400 - " ++ errText ++ "; Added variable '" ++ n2 ++ "'",
      by simp only [String.append_assoc]⟩
  · exact ⟨"Successfully created Record Producer '" ++ name ++ "' (Sys ID: ",
      ").\nVariables: Error adding variable '" ++ n1
        ++ "': HTTP Error: 400 - " ++ errText ++ "; Added variable '" ++ n2 ++ "'",
      by simp only [String.append_assoc]⟩

set_option maxRecDepth 8192 in
/-- Witness for `record_producer_partial_failure`. -/
theorem record_producer_partial_failure_witness :
    ∃ s, (create_record_producer "P" "incident" none none none
        [[("name", .str "v1")], [("name", .str "v2")]] []
        (.response 201 "t" (some (.obj [("result", .obj [("sys_id", .str "psid")])])))
        (fun _ => .requestError "unused")
        (fun i => if i == 0
          then .response 201 "t" (some (.obj [("result", .obj [("sys_id", .str "vid")])]))
          else .response 400 "oops" (some (.obj [])))).1 = .ok s
      ∧ s = "Successfully created Record Producer '" ++ "P" ++ "' (Sys ID: "
          ++ "psid" ++ ").\nVariables: Added variable '" ++ "v1"
          ++ "'; Error adding variable '" ++ "v2" ++ "': HTTP Error: 400 - " ++ "oops"
      ∧ containsSub "P" s ∧ containsSub "psid" s :=
  (record_producer_partial_failure "P" "incident" "psid" "v1" "v2" "oops" "t" "t"
    (by decide)).1
